import Mathlib

/-!
Verification development for the MindForge repository: an idea-evaluation
platform with a React frontend (submission form, polling loop, feedback
display, per-user local storage, fetch wrappers) and a FastAPI backend
(submission queue with a single worker, round-robin Gemini key pool, tiered
agentic / baseline / synthetic evaluation).  The backend service code is not
present in the repository snapshot (only its README documentation), so the
backend components are modelled from the specification; the frontend
components are embedded directly from the JavaScript sources.
-/

namespace MindForge

/-! ## Rubric scoring (Evaluation Engine)

Modelled from the spec: the backend files app/services/ai_service.py and
app/services/agent_service.py are missing from the snapshot.  Per the spec,
a RubricScore is a fixed named set of bounded integer criteria (five named
criteria, each 0..100) plus a derived aggregate equal to round(arithmetic
mean of the clamped criteria).  The criterion names are taken from the
frontend (FeedbackCard.jsx, IdeaSubmissionForm.jsx) and the backend README:
aiRelevance, creativity, impact, clarity, funFactor. -/

/-- Clamp of one criterion value to its declared bounds 0..100, as the spec
requires before the aggregate is computed. -/
def clampCriterion (x : ℤ) : ℤ := max 0 (min 100 x)

/-- Raw structured response parsed from a generation call: the five named
criterion values (possibly out of bounds) plus the feedback text. -/
structure RawResponse where
  aiRelevance : ℤ
  creativity : ℤ
  impact : ℤ
  clarity : ℤ
  funFactor : ℤ
  feedbackText : String
deriving Repr, DecidableEq

/-- Final rubric score: five clamped criteria plus the derived aggregate. -/
structure RubricScore where
  aiRelevance : ℤ
  creativity : ℤ
  impact : ℤ
  clarity : ℤ
  funFactor : ℤ
  totalScore : ℤ
deriving Repr, DecidableEq

/-- Rounded arithmetic mean of five criteria whose sum is s: round half up
of s / 5, computed in integer arithmetic as (2 * s + 5) / 10.  The sum of
clamped criteria is always nonnegative, so it is taken through Nat. -/
def roundMean5 (s : ℤ) : ℤ := ((2 * s.toNat + 5) / 10 : ℕ)

/-- Sum of the five clamped criteria of a raw response. -/
def sumClamped (raw : RawResponse) : ℤ :=
  clampCriterion raw.aiRelevance + clampCriterion raw.creativity +
    clampCriterion raw.impact + clampCriterion raw.clarity +
    clampCriterion raw.funFactor

/-- Validation step of the Evaluation Engine: every criterion is clamped to
its valid range before computing aggregate = round(mean(clamped)). -/
def validateAndClamp (raw : RawResponse) : RubricScore :=
  { aiRelevance := clampCriterion raw.aiRelevance
    creativity := clampCriterion raw.creativity
    impact := clampCriterion raw.impact
    clarity := clampCriterion raw.clarity
    funFactor := clampCriterion raw.funFactor
    totalScore := roundMean5 (sumClamped raw) }

/-- Every criterion of a rubric score lies within its declared bounds. -/
def inBounds (r : RubricScore) : Prop :=
  (0 ≤ r.aiRelevance ∧ r.aiRelevance ≤ 100) ∧
  (0 ≤ r.creativity ∧ r.creativity ≤ 100) ∧
  (0 ≤ r.impact ∧ r.impact ≤ 100) ∧
  (0 ≤ r.clarity ∧ r.clarity ≤ 100) ∧
  (0 ≤ r.funFactor ∧ r.funFactor ≤ 100)

/-- Aggregate recomputed from the stored criteria by the same formula. -/
def recomputedTotal (r : RubricScore) : ℤ :=
  roundMean5 (r.aiRelevance + r.creativity + r.impact + r.clarity + r.funFactor)

/-- Structural validity of a rubric score: all criteria in bounds and the
aggregate recomputable from the criteria by the rounded-mean formula. -/
def structurallyValid (r : RubricScore) : Prop :=
  inBounds r ∧ r.totalScore = recomputedTotal r

theorem clampCriterion_nonneg (x : ℤ) : 0 ≤ clampCriterion x :=
  le_max_left 0 _

theorem clampCriterion_le (x : ℤ) : clampCriterion x ≤ 100 :=
  max_le (by norm_num) (min_le_left 100 x)

theorem sumClamped_nonneg (raw : RawResponse) : 0 ≤ sumClamped raw := by
  unfold sumClamped
  have h1 := clampCriterion_nonneg raw.aiRelevance
  have h2 := clampCriterion_nonneg raw.creativity
  have h3 := clampCriterion_nonneg raw.impact
  have h4 := clampCriterion_nonneg raw.clarity
  have h5 := clampCriterion_nonneg raw.funFactor
  linarith

/-- Integer rounded-mean formula agrees with round of the rational mean for
nonnegative sums. -/
theorem roundMean5_eq_round (s : ℤ) (hs : 0 ≤ s) :
    roundMean5 s = round ((s : ℚ) / 5) := by
  obtain ⟨n, rfl⟩ : ∃ n : ℕ, s = (n : ℤ) := ⟨s.toNat, (Int.toNat_of_nonneg hs).symm⟩
  unfold roundMean5
  have hto : ((n : ℤ)).toNat = n := by simp
  rw [hto]
  set q := (2 * n + 5) / 10 with hq
  set r := (2 * n + 5) % 10 with hr
  have hdm : 10 * q + r = 2 * n + 5 := Nat.div_add_mod (2 * n + 5) 10
  have hmod : r < 10 := Nat.mod_lt _ (by norm_num)
  have h1 : (10 : ℚ) * q + r = 2 * n + 5 := by exact_mod_cast hdm
  have h2 : (r : ℚ) < 10 := by exact_mod_cast hmod
  have h3 : (0 : ℚ) ≤ r := by positivity
  rw [round_eq, eq_comm, Int.floor_eq_iff]
  push_cast
  constructor <;> linarith

theorem validateAndClamp_valid (raw : RawResponse) :
    structurallyValid (validateAndClamp raw) := by
  constructor
  · exact ⟨⟨clampCriterion_nonneg _, clampCriterion_le _⟩,
      ⟨clampCriterion_nonneg _, clampCriterion_le _⟩,
      ⟨clampCriterion_nonneg _, clampCriterion_le _⟩,
      ⟨clampCriterion_nonneg _, clampCriterion_le _⟩,
      ⟨clampCriterion_nonneg _, clampCriterion_le _⟩⟩
  · rfl

/-! ## Tiered evaluation (Evaluation Engine escalation policy)

Modelled from the spec: evaluate(submission) runs three tiers.  Tier 1
(agentic, only when a search provider is configured) calls enrichment and,
on success, an enriched generation; tier 2 (baseline) is a rubric-only
generation entered when tier 1 is unconfigured or fails at any step; tier 3
(synthetic) is entered only when tier 2 fails, and deterministically derives
length-informed scores, never all-zero, with feedback flagged as fallback.
External outcomes (enrichment result, generation-plus-parse outcome per
tier) are supplied by an oracle record; a None outcome is a failure of that
external step. -/

/-- Submission consumed by the core: identity plus pitch text. -/
structure Submission where
  identity : String
  pitch : String
deriving Repr, DecidableEq

/-- Configuration surface relevant to tier selection: presence of search
credentials toggles the agentic tier. -/
structure Config where
  searchConfigured : Bool
deriving Repr, DecidableEq

/-- Bounded ordered sequence of title / snippet / excerpt entries. -/
structure ContextBundle where
  entries : List (String × String × String)
deriving Repr, DecidableEq

/-- Outcomes of the external calls made during one evaluation: the
enrichment result, and the generation-plus-parse outcome of the agentic and
baseline prompts.  None models failure (error, timeout, or parse failure). -/
structure EvalOracle where
  enrichResult : Option ContextBundle
  agenticOutcome : Option RawResponse
  baselineOutcome : Option RawResponse
deriving Repr, DecidableEq

/-- Result of evaluate: rubric score, feedback text, fallback flag. -/
structure EvalResult where
  scores : RubricScore
  feedbackText : String
  isFallback : Bool
deriving Repr, DecidableEq

/-- Synthetic tier raw scores: deterministic, length-informed, never
all-zero (base value at least 40, growing with pitch length up to 75). -/
def syntheticScores (pitch : String) : RawResponse :=
  let base : ℤ := 40 + min 35 ((pitch.length : ℤ) / 20)
  { aiRelevance := base, creativity := base, impact := base,
    clarity := base, funFactor := base,
    feedbackText := "Fallback evaluation: AI scoring was unavailable, so scores were derived from local heuristics." }

/-- Synthetic tier result: deterministic scores with fallback-flagged
feedback. -/
def syntheticResult (sub : Submission) : EvalResult :=
  { scores := validateAndClamp (syntheticScores sub.pitch)
    feedbackText := (syntheticScores sub.pitch).feedbackText
    isFallback := true }

/-- Three-tier escalation of the Evaluation Engine: agentic tier (when
configured and enrichment plus generation plus parse succeed), else baseline
tier, else the synthetic tier. -/
def evaluate (cfg : Config) (sub : Submission) (o : EvalOracle) : EvalResult :=
  let tier1 : Option RawResponse :=
    if cfg.searchConfigured then
      match o.enrichResult with
      | some _ => o.agenticOutcome
      | none => none
    else none
  match tier1 with
  | some raw =>
      { scores := validateAndClamp raw, feedbackText := raw.feedbackText,
        isFallback := false }
  | none =>
      match o.baselineOutcome with
      | some raw =>
          { scores := validateAndClamp raw, feedbackText := raw.feedbackText,
            isFallback := false }
      | none => syntheticResult sub

/-- Claim C1: for every submission, evaluate returns a structurally valid
rubric-plus-feedback result; in particular, when enrichment and both
generation attempts fail, the synthetic tier deterministically produces the
result, and no error escapes the boundary of evaluate (it is a total
function into EvalResult). -/
theorem evaluate_always_structurally_valid :
    (∀ (cfg : Config) (sub : Submission) (o : EvalOracle),
        structurallyValid (evaluate cfg sub o).scores) ∧
    (∀ (cfg : Config) (sub : Submission),
        evaluate cfg sub ⟨none, none, none⟩ = syntheticResult sub) := by
  constructor
  · intro cfg sub o
    unfold evaluate
    rcases cfg with ⟨sc⟩
    cases sc <;> rcases o with ⟨enr, ag, base⟩ <;>
      cases enr <;> cases ag <;> cases base <;>
      simp [syntheticResult, validateAndClamp_valid]
  · intro cfg sub
    rcases cfg with ⟨sc⟩
    cases sc <;> rfl

/-- Claim C2: for every generated rubric response, including responses with
out-of-bound criterion values, every criterion of the validated RubricScore
is the clamp of the raw value and lies within its declared bounds, and the
aggregate equals round(arithmetic mean of the clamped criteria). -/
theorem validateAndClamp_bounds_and_aggregate :
    ∀ raw : RawResponse,
      inBounds (validateAndClamp raw) ∧
      (validateAndClamp raw).aiRelevance = clampCriterion raw.aiRelevance ∧
      (validateAndClamp raw).creativity = clampCriterion raw.creativity ∧
      (validateAndClamp raw).impact = clampCriterion raw.impact ∧
      (validateAndClamp raw).clarity = clampCriterion raw.clarity ∧
      (validateAndClamp raw).funFactor = clampCriterion raw.funFactor ∧
      (validateAndClamp raw).totalScore = round ((sumClamped raw : ℚ) / 5) := by
  intro raw
  refine ⟨(validateAndClamp_valid raw).1, rfl, rfl, rfl, rfl, rfl, ?_⟩
  exact roundMean5_eq_round _ (sumClamped_nonneg raw)

/-! ## Submission queue (enqueue and duplicate rejection)

Modelled from the spec: the backend file app/services/evaluation_queue.py is
missing from the snapshot.  Per the spec, enqueue(submission) is rejected
with a DuplicateSubmission condition if the identity already has a job with
status in queued, processing, completed; otherwise the submission is
appended to the FIFO tail with a freshly generated unique job id. -/

/-- Job lifecycle states of the submission queue. -/
inductive JobStatus where
  | queued
  | processing
  | completed
  | failed
deriving Repr, DecidableEq

/-- Job record tracked by the queue. -/
structure QJob where
  jobId : ℕ
  identity : String
  status : JobStatus
deriving Repr, DecidableEq

/-- Queue state: the job table plus the fresh-id counter. -/
structure QueueState where
  jobs : List QJob
  nextId : ℕ
deriving Repr, DecidableEq

/-- Statuses that block a new enqueue for the same identity. -/
def activeStatus : JobStatus → Bool
  | .queued => true
  | .processing => true
  | .completed => true
  | .failed => false

/-- Whether the identity already has a job with a blocking status. -/
def hasActive (q : QueueState) (ident : String) : Bool :=
  q.jobs.any fun j => j.identity == ident && activeStatus j.status

/-- Enqueue rejection condition. -/
inductive EnqueueError where
  | duplicateSubmission
deriving Repr, DecidableEq

/-- Enqueue: reject duplicates, otherwise append a fresh queued job at the
FIFO tail and return its freshly generated id. -/
def enqueue (q : QueueState) (sub : Submission) : Except EnqueueError (ℕ × QueueState) :=
  if hasActive q sub.identity then .error .duplicateSubmission
  else .ok (q.nextId,
    { jobs := q.jobs ++ [{ jobId := q.nextId, identity := sub.identity, status := .queued }]
      nextId := q.nextId + 1 })

/-- Well-formedness of the fresh-id counter: every stored id is below it. -/
def idsBounded (q : QueueState) : Prop :=
  ∀ j ∈ q.jobs, j.jobId < q.nextId

/-- Claim C4: for every identity and queue state, an enqueue for an identity
that already has a job with status queued, processing, or completed is
rejected with DuplicateSubmission; otherwise the submission is appended to
the FIFO tail with a freshly generated unique job id (and id freshness is
preserved). -/
theorem enqueue_duplicate_or_fresh_append (q : QueueState) (sub : Submission)
    (hwf : idsBounded q) :
    (hasActive q sub.identity = true →
        enqueue q sub = .error .duplicateSubmission) ∧
    (hasActive q sub.identity = false →
        enqueue q sub = .ok (q.nextId,
          { jobs := q.jobs ++
              [{ jobId := q.nextId, identity := sub.identity, status := .queued }]
            nextId := q.nextId + 1 }) ∧
        (∀ j ∈ q.jobs, j.jobId ≠ q.nextId) ∧
        idsBounded
          { jobs := q.jobs ++
              [{ jobId := q.nextId, identity := sub.identity, status := .queued }]
            nextId := q.nextId + 1 }) := by
  constructor
  · intro h
    simp [enqueue, h]
  · intro h
    refine ⟨by simp [enqueue, h], ?_, ?_⟩
    · intro j hj
      exact Nat.ne_of_lt (hwf j hj)
    · intro j hj
      rcases List.mem_append.mp hj with hj1 | hj2
      · exact Nat.lt_succ_of_lt (hwf j hj1)
      · rcases List.mem_singleton.mp hj2 with rfl
        exact Nat.lt_succ_self _

theorem enqueue_duplicate_or_fresh_append_witness :
    (enqueue ⟨[⟨0, "alice", JobStatus.completed⟩], 1⟩ ⟨"alice", "pitch a"⟩
        = .error .duplicateSubmission) ∧
    (enqueue ⟨[⟨0, "alice", JobStatus.completed⟩], 1⟩ ⟨"bob", "pitch b"⟩
        = .ok (1, ⟨[⟨0, "alice", JobStatus.completed⟩, ⟨1, "bob", JobStatus.queued⟩], 2⟩)) :=
  ⟨(enqueue_duplicate_or_fresh_append ⟨[⟨0, "alice", JobStatus.completed⟩], 1⟩
      ⟨"alice", "pitch a"⟩
      (by intro j hj; rcases List.mem_singleton.mp hj with rfl; decide)).1 (by decide),
   ((enqueue_duplicate_or_fresh_append ⟨[⟨0, "alice", JobStatus.completed⟩], 1⟩
      ⟨"bob", "pitch b"⟩
      (by intro j hj; rcases List.mem_singleton.mp hj with rfl; decide)).2 (by decide)).1⟩

/-! ## Single worker, FIFO completion order

Modelled from the spec: the background worker of evaluation_queue.py (not in
the snapshot) pops the head, processes the job to completion, stamps its
completion time from a monotone clock, and repeats; there is one queue and
one consumer, so no two jobs are ever processed concurrently.  Processing
durations are arbitrary nonnegative amounts of logical time. -/

/-- Single-consumer worker run: processes the pending list in FIFO order,
returning each submission paired with its completion timestamp. -/
def runWorker (dur : Submission → ℕ) : ℕ → List Submission → List (Submission × ℕ)
  | _, [] => []
  | t, sub :: rest => (sub, t + dur sub) :: runWorker dur (t + dur sub) rest

theorem runWorker_clock_le (dur : Submission → ℕ) :
    ∀ (t : ℕ) (subs : List Submission) (x : Submission × ℕ),
      x ∈ runWorker dur t subs → t ≤ x.2 := by
  intro t subs
  induction subs generalizing t with
  | nil => intro x hx; simp [runWorker] at hx
  | cons s rest ih =>
    intro x hx
    rcases List.mem_cons.mp hx with rfl | hx2
    · exact Nat.le_add_right _ _
    · exact le_trans (Nat.le_add_right _ _) (ih (t + dur s) x hx2)

/-- Claim C6: for every sequence of enqueued submissions (with distinct
identities, so none is rejected), the worker completes jobs in strict FIFO
enqueue order: the processed submissions appear exactly in enqueue order and
the completion timestamps are non-decreasing along that order. -/
theorem runWorker_fifo_order (dur : Submission → ℕ) (t0 : ℕ)
    (subs : List Submission) (_hdist : (subs.map Submission.identity).Nodup) :
    ((runWorker dur t0 subs).map Prod.fst = subs) ∧
    List.Pairwise (· ≤ ·) ((runWorker dur t0 subs).map Prod.snd) := by
  clear _hdist
  induction subs generalizing t0 with
  | nil => simp [runWorker]
  | cons s rest ih =>
    have ih2 := ih (t0 + dur s)
    constructor
    · simp [runWorker, ih2.1]
    · simp only [runWorker, List.map_cons, List.pairwise_cons]
      refine ⟨?_, ih2.2⟩
      intro b hb
      rcases List.mem_map.mp hb with ⟨x, hx, rfl⟩
      exact runWorker_clock_le dur (t0 + dur s) rest x hx

theorem runWorker_fifo_order_witness :
    ((runWorker (fun _ => 1) 0 [⟨"a", "p1"⟩, ⟨"b", "p2"⟩]).map Prod.fst
        = [⟨"a", "p1"⟩, ⟨"b", "p2"⟩]) ∧
    List.Pairwise (· ≤ ·)
      ((runWorker (fun _ => 1) 0 [⟨"a", "p1"⟩, ⟨"b", "p2"⟩]).map Prod.snd) :=
  runWorker_fifo_order (fun _ => 1) 0 [⟨"a", "p1"⟩, ⟨"b", "p2"⟩] (by decide)

/-! ## Credential pool (round-robin key manager)

Modelled from the spec: the backend file app/services/key_manager.py is
missing from the snapshot.  Per the spec, the pool holds a fixed ordered set
of credentials and acquire() returns the next credential in cyclic order,
wrapping after the last; the only mutable state is the current index,
advanced by one per acquisition. -/

/-- Round-robin credential pool: fixed ordered key list plus current index. -/
structure KeyPool where
  keys : List String
  idx : ℕ
deriving Repr, DecidableEq

/-- Acquire the next credential in cyclic order and advance the index. -/
def acquire (p : KeyPool) : String × KeyPool :=
  (p.keys.getD (p.idx % p.keys.length) "", { p with idx := p.idx + 1 })

/-- Credential returned by the (j+1)-th consecutive acquire call. -/
def nthAcquire (p : KeyPool) : ℕ → String
  | 0 => (acquire p).1
  | j + 1 => nthAcquire (acquire p).2 j

/-- Credentials returned by n consecutive acquire calls, in order. -/
def acquireRun (p : KeyPool) : ℕ → List String
  | 0 => []
  | n + 1 => (acquire p).1 :: acquireRun (acquire p).2 n

theorem length_acquireRun (p : KeyPool) (n : ℕ) :
    (acquireRun p n).length = n := by
  induction n generalizing p with
  | zero => rfl
  | succ n ih => simp [acquireRun, ih]

theorem acquireRun_getElem :
    ∀ (n : ℕ) (p : KeyPool) (j : ℕ) (h : j < (acquireRun p n).length),
      (acquireRun p n)[j] = p.keys.getD ((p.idx + j) % p.keys.length) "" := by
  intro n
  induction n with
  | zero => intro p j h; simp [acquireRun] at h
  | succ n ih =>
    intro p j h
    cases j with
    | zero => simp [acquireRun, acquire]
    | succ j =>
      have h2 : j < (acquireRun (acquire p).2 n).length := by
        simp only [acquireRun, List.length_cons] at h
        omega
      have := ih (acquire p).2 j h2
      simp only [acquireRun, List.getElem_cons_succ]
      rw [this]
      have harg : p.idx + 1 + j = p.idx + (j + 1) := by omega
      simp [acquire, harg]

theorem nthAcquire_eq (j : ℕ) :
    ∀ p : KeyPool, nthAcquire p j = p.keys.getD ((p.idx + j) % p.keys.length) "" := by
  induction j with
  | zero => intro p; simp [nthAcquire, acquire]
  | succ j ih =>
    intro p
    have := ih (acquire p).2
    simp only [nthAcquire]
    rw [this]
    have harg : p.idx + 1 + j = p.idx + (j + 1) := by omega
    simp [acquire, harg]

/-- Claim C5: for every credential pool of size N at least 1 (a fixed set,
so the keys are distinct), N consecutive acquire calls return the N distinct
credentials in fixed cyclic order (the key list rotated to the current
index, a permutation of the whole pool with no repetition), and the
(N+1)-th call returns the same credential as the first call. -/
theorem keypool_cyclic (p : KeyPool) (hne : p.keys ≠ []) (hnd : p.keys.Nodup) :
    acquireRun p p.keys.length = p.keys.rotate p.idx ∧
    (acquireRun p p.keys.length).Nodup ∧
    (acquireRun p p.keys.length).Perm p.keys ∧
    nthAcquire p p.keys.length = nthAcquire p 0 := by
  have hlen0 : 0 < p.keys.length := List.length_pos.mpr hne
  have heq : acquireRun p p.keys.length = p.keys.rotate p.idx := by
    apply List.ext_getElem
    · rw [length_acquireRun, List.length_rotate]
    · intro i h1 h2
      rw [acquireRun_getElem, List.getElem_rotate,
        List.getD_eq_getElem _ _ (Nat.mod_lt _ hlen0)]
      congr 1
      rw [Nat.add_comm]
  refine ⟨heq, ?_, ?_, ?_⟩
  · rw [heq]
    exact List.nodup_rotate.mpr hnd
  · rw [heq]
    exact List.rotate_perm p.keys p.idx
  · rw [nthAcquire_eq, nthAcquire_eq, Nat.add_mod_right, Nat.add_zero]

theorem keypool_cyclic_witness :
    acquireRun ⟨["k1", "k2", "k3"], 0⟩ 3 = (["k1", "k2", "k3"] : List String).rotate 0 ∧
    (acquireRun ⟨["k1", "k2", "k3"], 0⟩ 3).Nodup ∧
    (acquireRun ⟨["k1", "k2", "k3"], 0⟩ 3).Perm ["k1", "k2", "k3"] ∧
    nthAcquire ⟨["k1", "k2", "k3"], 0⟩ 3 = nthAcquire ⟨["k1", "k2", "k3"], 0⟩ 0 :=
  keypool_cyclic ⟨["k1", "k2", "k3"], 0⟩ (by decide) (by decide)

/-! ## Frontend: JavaScript string primitives

Executable models of the JavaScript string operations the frontend uses.
JS String.prototype.trim removes whitespace from both ends; toLowerCase
lowercases each character (the sources only ever apply it to ASCII email or
uid strings).  Lengths are counted in characters, which agrees with the JS
length for the ASCII data these components handle. -/

/-- Model of JS String.prototype.trim. -/
def jsTrim (s : String) : String :=
  ⟨((s.data.dropWhile Char.isWhitespace).reverse.dropWhile Char.isWhitespace).reverse⟩

/-- Model of JS String.prototype.toLowerCase. -/
def jsToLower (s : String) : String := ⟨s.data.map Char.toLower⟩

/-! ## Frontend: IdeaSubmissionForm.handleSubmit (pitch-length validation)

Embedded from src/frontend/src/components/IdeaSubmissionForm.jsx.  The
handler rejects with an error message when idea.trim().length < 50 and
issues no enqueue request; otherwise it sends the submission payload built
with the trimmed idea.  The textarea carries maxLength = 1000 and the submit
button is disabled while the raw character count is below 50 or above
1000. -/

/-- Minimum pitch length enforced by the form (IdeaSubmissionForm.jsx). -/
def minCharacters : ℕ := 50

/-- Maximum pitch length: the textarea maxLength cap
(IdeaSubmissionForm.jsx). -/
def maxCharacters : ℕ := 1000

/-- Outcome of the submit handler: either an error message with no request
issued, or an enqueue request carrying the trimmed idea. -/
inductive SubmitStep where
  | rejected (errorMsg : String)
  | enqueueRequest (idea : String)
deriving Repr, DecidableEq

/-- Validation phase of handleSubmit: reject short ideas before any network
request; otherwise enqueue with the trimmed idea text. -/
def handleSubmit (idea : String) : SubmitStep :=
  if (jsTrim idea).length < 50 then
    .rejected "Please provide a more detailed idea (at least 50 characters)"
  else
    .enqueueRequest (jsTrim idea)

/-- Disabled condition of the submit button (line 205 of the form). -/
def submitDisabled (isSubmitting : Bool) (idea : String) : Bool :=
  isSubmitting || decide (idea.length < minCharacters)
    || decide (idea.length > maxCharacters)

/-- Claim C7: the caller validates pitch length before the core is reached:
when the trimmed idea is shorter than 50 characters the form sets an error
message and issues no enqueue request, and an enqueue request is only ever
sent with a trimmed idea of at least 50 characters; the input field caps raw
length at 1000 characters. -/
theorem handleSubmit_validates_length (idea : String) :
    ((jsTrim idea).length < 50 →
        handleSubmit idea
          = .rejected "Please provide a more detailed idea (at least 50 characters)") ∧
    (∀ s : String, handleSubmit idea = .enqueueRequest s →
        s = jsTrim idea ∧ minCharacters ≤ s.length) ∧
    maxCharacters = 1000 := by
  refine ⟨?_, ?_, rfl⟩
  · intro h
    simp [handleSubmit, h]
  · intro s hs
    unfold handleSubmit at hs
    by_cases h : (jsTrim idea).length < 50
    · rw [if_pos h] at hs
      exact absurd hs (by simp)
    · rw [if_neg h] at hs
      cases hs
      refine ⟨rfl, ?_⟩
      unfold minCharacters
      omega

theorem handleSubmit_validates_length_witness :
    (handleSubmit "a short idea"
        = .rejected "Please provide a more detailed idea (at least 50 characters)") ∧
    (handleSubmit ("an elaborate business idea that is certainly long enough " ++
          "to pass the fifty character validation threshold")
        = .enqueueRequest (jsTrim ("an elaborate business idea that is certainly long enough " ++
          "to pass the fifty character validation threshold"))) :=
  ⟨(handleSubmit_validates_length "a short idea").1 (by decide),
   by decide⟩

/-! ## Frontend: job-status polling loop

Embedded from src/frontend/src/components/IdeaSubmissionForm.jsx (the poll
closure): a failed status fetch stops with an error message; a response with
status "error" stops with the job error (or a default message); a response
with status "done" and a result stops and delivers the result (persisting
feedback and scores and calling onSubmissionSuccess); anything else
schedules another poll.  The backend documentation (backend/README.md) and
the spec instead document the status vocabulary queued, processing,
completed, failed. -/

/-- Evaluation result payload as the frontend reads it from the status
response: the five criteria, the total, and the feedback text. -/
structure JobResult where
  aiRelevance : ℤ
  creativity : ℤ
  impact : ℤ
  clarity : ℤ
  funFactor : ℤ
  totalScore : ℤ
  feedback : String
deriving Repr, DecidableEq

/-- Parsed body of a status response: status string, optional result,
optional job error. -/
structure StatusData where
  status : String
  result : Option JobResult
  error : Option String
deriving Repr, DecidableEq

/-- What one iteration of the poll loop decides to do. -/
inductive PollAction where
  | stopWithError (msg : String)
  | deliverResult (result : JobResult)
  | continuePolling
deriving Repr, DecidableEq

/-- One iteration of the poll closure, applied to the outcome of
getIdeaJobStatus: an Except.error is the statusRes.success = false branch
with its error message already defaulted. -/
def pollStep : Except String StatusData → PollAction
  | .error msg => .stopWithError msg
  | .ok d =>
      if d.status = "error" then
        .stopWithError (d.error.getD "Evaluation failed")
      else if d.status = "done" then
        match d.result with
        | some r => .deliverResult r
        | none => .continuePolling
      else
        .continuePolling

/-- Status vocabulary documented for the status endpoint by the spec and by
backend/README.md: queued, processing, completed, failed. -/
def statusToString : JobStatus → String
  | .queued => "queued"
  | .processing => "processing"
  | .completed => "completed"
  | .failed => "failed"

/-- Claim C3: the documented status vocabulary of the status lookup is
queued / processing / completed / failed, yet the polling loop does not stop
on the terminal statuses completed or failed: fed a completed response
carrying a result, or a failed response carrying an error, it schedules
another poll instead of stopping, contradicting the documented protocol
(the loop only stops on the strings "done" and "error"). -/
theorem pollStep_ignores_documented_terminal_statuses :
    statusToString JobStatus.completed = "completed" ∧
    statusToString JobStatus.failed = "failed" ∧
    pollStep (.ok { status := statusToString JobStatus.completed,
                    result := some ⟨80, 75, 70, 85, 60, 74, "Strong concept."⟩,
                    error := none }) = .continuePolling ∧
    pollStep (.ok { status := statusToString JobStatus.failed,
                    result := none,
                    error := some "evaluation failed" }) = .continuePolling ∧
    pollStep (.ok { status := "done",
                    result := some ⟨80, 75, 70, 85, 60, 74, "Strong concept."⟩,
                    error := none })
      = .deliverResult ⟨80, 75, 70, 85, 60, 74, "Strong concept."⟩ := by
  refine ⟨rfl, rfl, by decide, by decide, by decide⟩

/-! ## Frontend: rubric key consistency across the result pipeline

Embedded from IdeaSubmissionForm.jsx (scoresPayload, lines 82..90) and
FeedbackCard.jsx (the criteria array and the metric animation keys). -/

/-- Scores payload the submission flow saves (saveScores) and passes on,
keyed exactly as built in IdeaSubmissionForm.jsx. -/
def scoresPayload (r : JobResult) : List (String × ℤ) :=
  [("aiRelevance", r.aiRelevance),
   ("creativity", r.creativity),
   ("impact", r.impact),
   ("clarity", r.clarity),
   ("funFactor", r.funFactor),
   ("totalScore", r.totalScore)]

/-- Criterion keys the feedback display reads (FeedbackCard.jsx criteria
array). -/
def feedbackCardCriteriaKeys : List String :=
  ["aiRelevance", "creativity", "impact", "clarity", "funFactor"]

/-- Metric keys animated by FeedbackCard.jsx (metricKeys, line 39). -/
def feedbackCardMetricKeys : List String :=
  ["aiRelevance", "creativity", "impact", "clarity", "funFactor"]

/-- Claim C8: the rubric criteria form one fixed named set used consistently
across the result pipeline: every criterion key the feedback display reads
(and the totalScore it additionally displays) has a defined value in the
scores object the submission flow saves, and the animation keys coincide
with the criteria keys. -/
theorem feedback_keys_defined_in_saved_scores :
    feedbackCardMetricKeys = feedbackCardCriteriaKeys ∧
    ∀ (r : JobResult) (key : String),
      key ∈ feedbackCardCriteriaKeys ∨ key = "totalScore" →
      ((scoresPayload r).lookup key).isSome = true := by
  refine ⟨rfl, ?_⟩
  intro r key hkey
  rcases hkey with hmem | rfl
  · simp only [feedbackCardCriteriaKeys, List.mem_cons, List.not_mem_nil, or_false] at hmem
    rcases hmem with rfl | rfl | rfl | rfl | rfl <;> rfl
  · rfl

theorem feedback_keys_defined_in_saved_scores_witness :
    ((scoresPayload ⟨1, 2, 3, 4, 5, 3, "fb"⟩).lookup "funFactor").isSome = true :=
  feedback_keys_defined_in_saved_scores.2 ⟨1, 2, 3, 4, 5, 3, "fb"⟩ "funFactor"
    (Or.inl (by decide))

/-! ## Frontend: api.js fetch wrappers

Embedded from src/frontend/src/utils/api.js.  Every wrapper runs fetch and
response.json() inside try/catch: a rejected fetch or a thrown error is
caught and mapped to success false / data null / error message; a response
with ok false throws (and is caught) with the message
"HTTP error! status: N"; an ok response with parseable JSON yields success
true with the data.  The JS functions are untyped, so their returns are
embedded into one value domain JsReturn; pingBackend alone returns a
boolean (response.ok, or false on a caught error). -/

/-- Outcome of one fetch call: a rejected fetch (network error or thrown
exception with its message), or a response with its ok flag, HTTP status,
and the outcome of response.json() (Except.error is a JSON parse throw). -/
inductive FetchOutcome where
  | networkFailure (msg : String)
  | response (ok : Bool) (status : ℕ) (body : Except String String)
deriving Repr

/-- Return record shared by the api.js data wrappers. -/
structure ApiResult where
  success : Bool
  data : Option String
  error : Option String
deriving Repr, DecidableEq

/-- Value domain of the untyped JS returns of api.js. -/
inductive JsReturn where
  | apiResult (r : ApiResult)
  | boolean (b : Bool)
deriving Repr, DecidableEq

/-- Shared try/catch body of the data wrappers in api.js. -/
def fetchJsonWrapped (o : FetchOutcome) : ApiResult :=
  match o with
  | .networkFailure msg => { success := false, data := none, error := some msg }
  | .response ok status body =>
      if ok = false then
        { success := false, data := none,
          error := some ("HTTP error! status: " ++ toString status) }
      else
        match body with
        | .ok d => { success := true, data := some d, error := none }
        | .error msg => { success := false, data := none, error := some msg }

/-- POST /ideas/submit wrapper. -/
def submitIdea (submissionData : String) (o : FetchOutcome) : JsReturn :=
  .apiResult (fetchJsonWrapped o)

/-- POST /ideas/submit_async wrapper. -/
def submitIdeaAsync (submissionData : String) (o : FetchOutcome) : JsReturn :=
  .apiResult (fetchJsonWrapped o)

/-- GET /ideas/status/jobId wrapper. -/
def getIdeaJobStatus (jobId : String) (o : FetchOutcome) : JsReturn :=
  .apiResult (fetchJsonWrapped o)

/-- GET /leaderboard wrapper. -/
def getLeaderboard (o : FetchOutcome) : JsReturn :=
  .apiResult (fetchJsonWrapped o)

/-- POST /users/profile wrapper. -/
def upsertUserProfile (profile : String) (o : FetchOutcome) : JsReturn :=
  .apiResult (fetchJsonWrapped o)

/-- GET /users/profile/uid wrapper. -/
def getUserProfileApi (uid : String) (o : FetchOutcome) : JsReturn :=
  .apiResult (fetchJsonWrapped o)

/-- GET /health wrapper: returns response.ok, or false on a caught error. -/
def pingBackend (o : FetchOutcome) : JsReturn :=
  match o with
  | .networkFailure _ => .boolean false
  | .response ok _ _ => .boolean ok

/-- Whether the fetch outcome is a failure: network error, thrown
exception (including a JSON parse throw), or non-ok HTTP status. -/
def fetchFails (o : FetchOutcome) : Bool :=
  match o with
  | .networkFailure _ => true
  | .response ok _ body =>
      !ok || (match body with | .error _ => true | .ok _ => false)

/-- Whether a JS return value is an object of the structured
success / data / error shape. -/
def isStructuredShape : JsReturn → Bool
  | .apiResult _ => true
  | .boolean _ => false

/-- Well-shaped return for a given fetch outcome: a structured record,
with success false and data null exactly on failure outcomes. -/
def wellShaped (o : FetchOutcome) (ret : JsReturn) : Prop :=
  ∃ r : ApiResult, ret = .apiResult r ∧
    (fetchFails o = true → r.success = false ∧ r.data = none) ∧
    (fetchFails o = false → r.success = true ∧ r.error = none ∧ r.data.isSome = true)

theorem fetchJsonWrapped_wellShaped (o : FetchOutcome) :
    wellShaped o (.apiResult (fetchJsonWrapped o)) := by
  refine ⟨fetchJsonWrapped o, rfl, ?_, ?_⟩
  · intro h
    rcases o with msg | ⟨ok, status, body⟩
    · simp [fetchJsonWrapped]
    · cases ok
      · simp [fetchJsonWrapped]
      · rcases body with m | d
        · simp [fetchJsonWrapped]
        · simp [fetchFails] at h
  · intro h
    rcases o with msg | ⟨ok, status, body⟩
    · simp [fetchFails] at h
    · cases ok
      · simp [fetchFails] at h
      · rcases body with m | d
        · simp [fetchFails] at h
        · simp [fetchJsonWrapped]

/-- Counterexample to claim C9 as stated: pingBackend is an exported
function of api.js, and on a network error it returns the boolean false,
not an object of the success / data / error shape. -/
theorem pingBackend_not_structured :
    isStructuredShape (pingBackend (.networkFailure "Failed to fetch")) = false := rfl

/-- Claim C9, amended: for every input and every fetch outcome, each
exported data function of api.js (submitIdea, submitIdeaAsync,
getIdeaJobStatus, getLeaderboard, upsertUserProfile, getUserProfileApi)
returns an object of shape success / data / error and never throws, with
success false and data null on every failure; the remaining exported
function pingBackend instead returns a boolean (response.ok, or false on a
caught error) and never throws. -/
theorem api_wrappers_wellShaped (s j p u : String) (o : FetchOutcome) :
    wellShaped o (submitIdea s o) ∧
    wellShaped o (submitIdeaAsync s o) ∧
    wellShaped o (getIdeaJobStatus j o) ∧
    wellShaped o (getLeaderboard o) ∧
    wellShaped o (upsertUserProfile p o) ∧
    wellShaped o (getUserProfileApi u o) ∧
    (pingBackend o
      = .boolean (match o with | .networkFailure _ => false | .response ok _ _ => ok)) :=
  ⟨fetchJsonWrapped_wellShaped o, fetchJsonWrapped_wellShaped o,
   fetchJsonWrapped_wellShaped o, fetchJsonWrapped_wellShaped o,
   fetchJsonWrapped_wellShaped o, fetchJsonWrapped_wellShaped o,
   by rcases o with _ | _ <;> rfl⟩

theorem api_wrappers_wellShaped_witness :
    wellShaped (.response false 500 (.ok "body"))
        (submitIdea "payload" (.response false 500 (.ok "body"))) ∧
    wellShaped (.response false 500 (.ok "body"))
        (submitIdeaAsync "payload" (.response false 500 (.ok "body"))) ∧
    wellShaped (.response false 500 (.ok "body"))
        (getIdeaJobStatus "job1" (.response false 500 (.ok "body"))) ∧
    wellShaped (.response false 500 (.ok "body"))
        (getLeaderboard (.response false 500 (.ok "body"))) ∧
    wellShaped (.response false 500 (.ok "body"))
        (upsertUserProfile "profile" (.response false 500 (.ok "body"))) ∧
    wellShaped (.response false 500 (.ok "body"))
        (getUserProfileApi "uid1" (.response false 500 (.ok "body"))) ∧
    (pingBackend (.response false 500 (.ok "body")) = .boolean false) :=
  api_wrappers_wellShaped "payload" "job1" "profile" "uid1"
    (.response false 500 (.ok "body"))

/-! ## Frontend: per-user localStorage (storage.js)

Embedded from src/frontend/src/utils/storage.js.  localStorage is modelled
as an association list where setItem prepends and getItem takes the first
match (so a later setItem shadows an earlier one, as in the browser).
JSON.stringify and JSON.parse are the inverse platform pair applied to an
opaque feedback value; values are represented by their canonical JSON
serialization, on which stringify is the identity and parse its inverse.  A
JSON-serializable value never serializes to the empty string, which is what
keeps the falsy check in getFeedback from misfiring. -/

/-- Browser localStorage model: newest entry first. -/
abbrev Storage := List (String × String)

/-- localStorage.setItem. -/
def setItem (store : Storage) (key value : String) : Storage :=
  (key, value) :: store

/-- localStorage.getItem: first (most recent) entry for the key. -/
def getItem (store : Storage) (key : String) : Option String :=
  (store.find? fun e => e.1 == key).map fun e => e.2

/-- Key normalization of storage.js: falsy keys become "anonymous", others
are trimmed then lowercased. -/
def normalizeKey (userKey : String) : String :=
  if userKey = "" then "anonymous" else jsToLower (jsTrim userKey)

/-- Per-user namespacing of a base key (the k helper of storage.js). -/
def storageKey (base userKey : String) : String :=
  base ++ ":" ++ normalizeKey userKey

/-- Feedback base key (BASE_KEYS.FEEDBACK). -/
def baseKeyFeedback : String := "mindForgeFeedback"

/-- Submission-time base key (BASE_KEYS.SUBMISSION_TIME). -/
def baseKeySubmissionTime : String := "mindForgeSubmissionTime"

/-- saveFeedback: store the serialized feedback under the namespaced
feedback key, then the current time under the submission-time key. -/
def saveFeedback (feedback : String) (userKey : String) (now : String)
    (store : Storage) : Storage :=
  setItem (setItem store (storageKey baseKeyFeedback userKey) feedback)
    (storageKey baseKeySubmissionTime userKey) now

/-- getFeedback: read the namespaced feedback key; a missing or falsy
(empty) entry yields null, otherwise the parsed value. -/
def getFeedback (userKey : String) (store : Storage) : Option String :=
  match getItem store (storageKey baseKeyFeedback userKey) with
  | some s => if s = "" then none else some s
  | none => none

theorem storageKey_time_ne_feedback (u1 u2 : String) :
    storageKey baseKeySubmissionTime u1 ≠ storageKey baseKeyFeedback u2 := by
  intro h
  unfold storageKey baseKeySubmissionTime baseKeyFeedback at h
  have hd := congrArg String.data h
  simp only [String.data_append] at hd
  simp at hd

/-- Counterexample to claim C10 as stated: the empty key and a blank key
are equal after trimming and lowercasing, but the save/load pair does not
round-trip between them, because the falsy empty key is normalized to
"anonymous" while the blank key is normalized to the empty string. -/
theorem storage_roundtrip_fails_on_falsy_key :
    jsToLower (jsTrim "") = jsToLower (jsTrim " ") ∧
    getFeedback " "
      (saveFeedback "serialized-feedback" "" "2025-01-01T00:00:00Z" []) = none := by
  exact ⟨by decide, by decide⟩

/-- Claim C10, amended: for every JSON-serializable feedback value (its
serialization is never the empty string) and any two non-empty (truthy)
user keys that are equal after trimming and lowercasing, getFeedback after
saveFeedback returns the saved value: the pair round-trips under the key
normalization that namespaces storage per user. -/
theorem saveFeedback_getFeedback_roundtrip (v u1 u2 now : String) (store : Storage)
    (hv : v ≠ "") (h1 : u1 ≠ "") (h2 : u2 ≠ "")
    (h12 : jsToLower (jsTrim u1) = jsToLower (jsTrim u2)) :
    getFeedback u2 (saveFeedback v u1 now store) = some v := by
  have hnorm : normalizeKey u1 = normalizeKey u2 := by
    simp [normalizeKey, h1, h2, h12]
  have hkey : storageKey baseKeyFeedback u1 = storageKey baseKeyFeedback u2 := by
    simp [storageKey, hnorm]
  have hb1 : (storageKey baseKeySubmissionTime u1 == storageKey baseKeyFeedback u2) = false :=
    beq_eq_false_iff_ne.mpr (storageKey_time_ne_feedback u1 u2)
  have hb2 : (storageKey baseKeyFeedback u1 == storageKey baseKeyFeedback u2) = true :=
    beq_iff_eq.mpr hkey
  simp [getFeedback, saveFeedback, setItem, getItem, List.find?, hb1, hb2, hv]

theorem saveFeedback_getFeedback_roundtrip_witness :
    getFeedback "User@Example.com "
      (saveFeedback "serialized-feedback" " user@example.com" "2025-01-01T00:00:00Z" [])
      = some "serialized-feedback" :=
  saveFeedback_getFeedback_roundtrip "serialized-feedback" " user@example.com"
    "User@Example.com " "2025-01-01T00:00:00Z" [] (by decide) (by decide) (by decide)
    (by decide)

end MindForge
